import Mathlib

/-!
Shallow embedding of `src/update.py` (bulk product updater).

Python dictionaries are modelled as association lists over `String` keys,
JSON values as the inductive `Json`, spreadsheet cells (read with
`dtype=str`, so a cell is either a string or NaN) as `Cell`.  Python code
that can raise is modelled with `Option`/`Except`: a `none`/`.error`
result stands for an uncaught exception at that point.  Remote HTTP calls
are modelled by oracle functions supplied as parameters; alongside each
row-processing function we count the number of remote calls it performs.
-/

namespace Update

/-- JSON-like values, as produced by `json.load` / `resp.json()`. -/
inductive Json where
  | null : Json
  | str (s : String) : Json
  | num (n : Int) : Json
  | arr (xs : List Json) : Json
  | obj (fields : List (String × Json)) : Json
deriving Repr

/-- A Python `dict` with string keys, in insertion order. -/
abbrev Dict := List (String × Json)

/-- `d.get(k)` / `d[k]` lookup: first binding of `k`. -/
def Dict.get? (d : Dict) (k : String) : Option Json :=
  (d.find? (fun p => p.1 == k)).map (fun p => p.2)

/-- `k in d`. -/
def Dict.hasKey (d : Dict) (k : String) : Bool :=
  (d.find? (fun p => p.1 == k)).isSome

/-- `d[k] = v`: replace the (unique) binding in place when `k` is
present — Python dicts keep the original position — append at the end
otherwise. -/
def Dict.set (d : Dict) (k : String) (v : Json) : Dict :=
  match d with
  | [] => [(k, v)]
  | p :: t => if p.1 == k then (k, v) :: t else p :: Dict.set t k v

/-- `d.pop(k, None)`: remove the binding of `k` when present. -/
def Dict.pop (d : Dict) (k : String) : Dict :=
  d.filter (fun p => !(p.1 == k))

/-- `list(d.keys())`: the keys in order. -/
def Dict.keys (d : Dict) : List String := d.map (fun p => p.1)

/-- Python truthiness of a JSON value (`if x:`). -/
def jsonTruthy : Json → Bool
  | .null => false
  | .str s => s != ""
  | .num n => n != 0
  | .arr [] => false
  | .arr (_ :: _) => true
  | .obj [] => false
  | .obj (_ :: _) => true

/-- `str(x)` for the JSON values the updater stringifies
(`str(r["record_id"])`, `str(r["error_message"])`).  Container reprs are
abstracted to placeholders; the claims below never inspect them. -/
def pyStr : Json → String
  | .null => "None"
  | .str s => s
  | .num n => toString n
  | .arr _ => "<list repr>"
  | .obj _ => "<dict repr>"

/-- Python `s.lower()` (ASCII-relevant part), as a kernel-reducible
character-list map. -/
def pyLower (s : String) : String := ⟨s.data.map Char.toLower⟩

/-- Python `s.strip()`: drop whitespace from both ends. -/
def pyStrip (s : String) : String :=
  ⟨((s.data.dropWhile Char.isWhitespace).reverse.dropWhile Char.isWhitespace).reverse⟩

/-! ### Payload builder (`PayloadGenerator`, src/update.py lines 145-200) -/

/-- `PayloadGenerator.tmall_setting(product_id, sku_id)`:
`{"source": [TMALL_LABEL], "product_id": product_id, "sku_id": sku_id}`.
`none` stands for Python `None`. -/
def tmall_setting (tmallLabel : String) (product_id sku_id : Option String) : Json :=
  .obj [("source", .arr [.str tmallLabel]),
        ("product_id", (product_id.map Json.str).getD .null),
        ("sku_id", (sku_id.map Json.str).getD .null)]

/-- One step of the `for k in list(tpl.keys())` loop of
`PayloadGenerator._fill_additional`, on a dict-shaped `src`.
Returns `none` when the step raises (non-dict `primary_category`), which
the surrounding `try/except: pass` turns into an early stop that keeps
the mutations made so far. -/
def fillAdditionalStep (src tpl : Dict) (k : String) : Option Dict :=
  if k == "primary_category_code" then
    match Dict.get? src "primary_category" with
    | none => some tpl
    | some (.obj pc) =>
        match Dict.get? pc "category_code" with
        | some c => if jsonTruthy c then some (Dict.set tpl k c) else some tpl
        | none => some tpl
    | some _ => none
  else
    match Dict.get? src k with
    | some v => some (Dict.set tpl k v)
    | none => some tpl

/-- The `_fill_additional` overlay loop over `keys` (a snapshot of the
template keys); an exception mid-loop keeps the mutations made before it
(`except Exception: pass`). -/
def fillAdditionalLoop (src : Dict) : List String → Dict → Dict
  | [], tpl => tpl
  | k :: ks, tpl =>
      match fillAdditionalStep src tpl k with
      | some tpl2 => fillAdditionalLoop src ks tpl2
      | none => tpl

/-- `PayloadGenerator._fill_additional(base, data)` acting on the
`product` sub-dict.  Any failure to reach a dict-shaped
`product.additional.hktv` template or a dict-shaped source raises inside
the `try` and leaves the template untouched (`except Exception: pass`);
a non-dict source value always raises before its first mutation. -/
def fillAdditional (product data : Dict) : Dict :=
  match Dict.get? product "additional" with
  | some (.obj add) =>
      match Dict.get? add "hktv" with
      | some (.obj tpl) =>
          let src : Option Dict :=
            match Dict.get? data "additional" with
            | none => some []
            | some (.obj a2) =>
                match Dict.get? a2 "hktv" with
                | none => some []
                | some (.obj s) => some s
                | some _ => none
            | some _ => none
          match src with
          | some s =>
              let tpl2 := fillAdditionalLoop s (Dict.keys tpl) tpl
              Dict.set product "additional" (.obj (Dict.set add "hktv" (.obj tpl2)))
          | none => product
      | _ => product
  | _ => product

/-- The `for k in list(base["product"].keys())` overlay loop of
`PayloadGenerator.build` (lines 164-170). -/
def overlayProduct (p data : Dict) : Dict :=
  (Dict.keys p).foldl
    (fun acc k =>
      if k == "additional" then fillAdditional acc data
      else
        match Dict.get? data k with
        | some v => Dict.set acc k v
        | none => acc)
    p

/-- Lines 172-177: the mode-specific overlay on the `hktv` block.
A truthy `warehouse_id` sets the warehouse field and pops the
marketplace linkage; a falsy one (`None` or `""`) pops the warehouse
field and sets the marketplace linkage. -/
def modeBranch (tmallLabel : String) (taobao_id taobao_sku_id warehouse_id : Option String)
    (hktv : Dict) : Dict :=
  match warehouse_id with
  | some w =>
      if w == "" then
        Dict.set (Dict.pop hktv "warehouse_id") "external_platform"
          (tmall_setting tmallLabel taobao_id taobao_sku_id)
      else
        Dict.pop (Dict.set hktv "warehouse_id" (.str w)) "external_platform"
  | none =>
      Dict.set (Dict.pop hktv "warehouse_id") "external_platform"
        (tmall_setting tmallLabel taobao_id taobao_sku_id)

/-- Lines 171 and 178: write the modified `hktv` block back through
`additional` and `product` and return the payload. -/
def buildTail (template p1 add hktv2 : Dict) : Dict :=
  Dict.set template "product"
    (.obj (Dict.set p1 "additional" (.obj (Dict.set add "hktv" (.obj hktv2)))))

/-- `PayloadGenerator.build(search_result, taobao_id, taobao_sku_id,
warehouse_id)` (lines 160-178).  `none` models an uncaught exception
(missing/empty `data`, non-dict first record, or non-dict
`product`/`additional`/`hktv` template shapes). -/
def PayloadGenerator.build (template : Dict) (tmallLabel : String)
    (search_result : Dict) (taobao_id taobao_sku_id warehouse_id : Option String) :
    Option Dict :=
  match Dict.get? search_result "data" with
  | some (.arr (.obj data :: _)) =>
      match Dict.get? template "product" with
      | some (.obj p0) =>
          let p1 := overlayProduct p0 data
          match Dict.get? p1 "additional" with
          | none =>
              some (buildTail template p1 []
                (modeBranch tmallLabel taobao_id taobao_sku_id warehouse_id []))
          | some (.obj add) =>
              match Dict.get? add "hktv" with
              | none =>
                  some (buildTail template p1 add
                    (modeBranch tmallLabel taobao_id taobao_sku_id warehouse_id []))
              | some (.obj hktv) =>
                  some (buildTail template p1 add
                    (modeBranch tmallLabel taobao_id taobao_sku_id warehouse_id hktv))
              | some _ => none
          | some _ => none
      | _ => none
  | _ => none

/-! ### Spreadsheet rows -/

/-- One spreadsheet cell after `pd.read_excel(..., dtype=str)`: a string
or NaN (empty cell). -/
inductive Cell where
  | str (s : String) : Cell
  | na : Cell
deriving DecidableEq, Repr

/-- A row: column name to cell, in column order. -/
abbrev Row := List (String × Cell)

/-- `row.get(c)`: first binding of column `c`, `none` when absent. -/
def Row.get? (r : Row) (c : String) : Option Cell :=
  (r.find? (fun p => p.1 == c)).map (fun p => p.2)

/-- Row lookup as an optional string; NaN cells (which Python would pass
through as float `nan`) are abstracted to `none`. -/
def Row.getStr? (r : Row) (c : String) : Option String :=
  match Row.get? r c with
  | some (.str s) => some s
  | _ => none

/-- `df.at[i, c] = v` restricted to one row: replace the (unique)
binding in place when the column exists, append otherwise. -/
def Row.set (r : Row) (c : String) (v : Cell) : Row :=
  match r with
  | [] => [(c, v)]
  | p :: t => if p.1 == c then (c, v) :: t else p :: Row.set t c v

/-- `build_payload_taobao(row, search_res)` (line 196): note the
`or None` on `taobao_sku_id`, which maps the empty string to `None`. -/
def build_payload_taobao (template : Dict) (tmallLabel : String)
    (row : Row) (search_res : Dict) : Option Dict :=
  PayloadGenerator.build template tmallLabel search_res
    (Row.getStr? row "taobao_id")
    (match Row.getStr? row "taobao_sku_id" with
     | some "" => none
     | v => v)
    none

/-- `build_payload_warehouse(row, search_res)` (line 199). -/
def build_payload_warehouse (template : Dict) (tmallLabel : String)
    (row : Row) (search_res : Dict) : Option Dict :=
  PayloadGenerator.build template tmallLabel search_res none none
    (Row.getStr? row "warehouse")

/-- The `product.additional.hktv` block of a built payload. -/
def hktvOf (payload : Dict) : Option Dict :=
  match Dict.get? payload "product" with
  | some (.obj p) =>
      match Dict.get? p "additional" with
      | some (.obj a) =>
          match Dict.get? a "hktv" with
          | some (.obj h) => some h
          | _ => none
      | _ => none
  | _ => none

/-- Whether the `hktv` block of a payload contains key `k`. -/
def hktvHasKey (payload : Dict) (k : String) : Bool :=
  match hktvOf payload with
  | some h => Dict.hasKey h k
  | none => false

/-! ### Default output path (src/update.py line 219)

`self.output_file = output_file or source_file.replace(".xlsx", "_result.xlsx")`.
`str.replace` replaces every non-overlapping occurrence, left to right. -/

/-- Python `s.replace(".xlsx", "_result.xlsx")` on the character list of
the path, with a structural fuel argument (one unit per character, which
always suffices since every step consumes at least one character). -/
def replaceXlsxF : Nat → List Char → List Char
  | 0, s => s
  | _ + 1, [] => []
  | f + 1, c :: cs =>
      if (".xlsx".data).isPrefixOf (c :: cs) then
        "_result.xlsx".data ++ replaceXlsxF f (cs.drop 4)
      else
        c :: replaceXlsxF f cs

/-- Python `s.replace(".xlsx", "_result.xlsx")`: replace every
non-overlapping occurrence, left to right. -/
def replaceXlsx (s : List Char) : List Char := replaceXlsxF s.length s

/-- The default output path when no explicit output file is supplied. -/
def defaultOutputFile (source_file : String) : String :=
  ⟨replaceXlsx source_file.data⟩

/-- `".xlsx"` occurs in `s` starting at position `p`. -/
def xlsxAt (s : List Char) (p : Nat) : Prop :=
  (".xlsx".data).isPrefixOf (s.drop p)

instance (s : List Char) (p : Nat) : Decidable (xlsxAt s p) := by
  unfold xlsxAt; infer_instance

/-! ### Remote API client retry loop (`ProductAPI._request`, lines 110-130) -/

/-- The outcome of one HTTP attempt, as seen by `_request`: a response
with a status code and body (and parsed JSON for 200s), or a transport
exception raised by the session call. -/
inductive HttpOutcome where
  | resp (code : Nat) (text : String) (json : Dict) : HttpOutcome
  | exn (msg : String) : HttpOutcome
deriving Repr

/-- Whether an attempt outcome makes the `try` body raise
(non-200 response or transport error). -/
def HttpOutcome.isFail : HttpOutcome → Bool
  | .resp code _ _ => code != 200
  | .exn _ => true

/-- The parsed body handed back when the `try` body returns normally,
which happens exactly on a 200 response. -/
def attemptResult : HttpOutcome → Option Dict
  | .resp code _ j => if code = 200 then some j else none
  | .exn _ => none

/-- The exception message produced by a failed attempt: 401 raises
`"Unauthorized, token refreshed, retrying"` after refreshing the token,
any other non-200 raises `f"{method} {url} {status_code} {text}"`, and a
transport error carries its own message. -/
def failMsg (method url : String) : HttpOutcome → String
  | .resp code text _ =>
      if code = 401 then "Unauthorized, token refreshed, retrying"
      else method ++ " " ++ url ++ " " ++ toString code ++ " " ++ text
  | .exn msg => msg

/-- Whether the attempt outcome triggers `self.refresh()` (HTTP 401). -/
def HttpOutcome.is401 : HttpOutcome → Bool
  | .resp code _ _ => code == 401
  | .exn _ => false

/-- Trace of one `_request` call: the final result (`.error` = the
`RuntimeError` raised once attempts are exhausted), the sleeps performed
between attempts (their delays, in order), and how many token refreshes
happened. -/
structure RequestTrace where
  result : Except String Dict
  sleeps : List ℚ
  refreshes : Nat
deriving Repr

/-- The `while True` loop of `_request` from attempt counter `attempt`
and current `delay`; `outcomes i` is the outcome of the `i`-th HTTP
attempt (0-based).  `delay` is modelled as an exact rational (the Python
floats 1.0 and products with backoff 1.5 are exactly representable). -/
def requestLoop (method url : String) (max_retries : Nat) (backoff : ℚ)
    (outcomes : Nat → HttpOutcome) (attempt : Nat) (delay : ℚ) : RequestTrace :=
  match attemptResult (outcomes attempt) with
  | some j => ⟨.ok j, [], 0⟩
  | none =>
      -- any other outcome raises inside the `try` (401 after a refresh)
      let refreshedHere : Nat := if (outcomes attempt).is401 then 1 else 0
      if attempt + 1 ≥ max_retries then
        ⟨.error ("Request failed after " ++ toString (attempt + 1) ++ " attempts: "
            ++ failMsg method url (outcomes attempt)),
         [], refreshedHere⟩
      else
        let rest := requestLoop method url max_retries backoff outcomes
          (attempt + 1) (delay * backoff)
        ⟨rest.result, delay :: rest.sleeps, refreshedHere + rest.refreshes⟩
termination_by max_retries - attempt
decreasing_by omega

/-- `ProductAPI._request(method, url, ...)`: the loop starts with
`attempt = 0` and `delay = 1.0`. -/
def pyRequest (method url : String) (max_retries : Nat) (backoff : ℚ)
    (outcomes : Nat → HttpOutcome) : RequestTrace :=
  requestLoop method url max_retries backoff outcomes 0 1

/-! ### Loading and resume merge (`ProductBulkUpdater.__init__` lines
226-241 and `_prepare` lines 244-257) -/

/-- A loaded dataframe: column names plus rows (each row an association
list over those columns). -/
structure DF where
  cols : List String
  rows : List Row
deriving Repr

/-- `df.columns = [c.strip().lower() for c in df.columns]`. -/
def normCols (df : DF) : DF :=
  ⟨df.cols.map (fun c => pyLower (pyStrip c)),
   df.rows.map (fun r => r.map (fun p => (pyLower (pyStrip p.1), p.2)))⟩

/-- The per-row effect of `base_df.update(prev)` after both frames are
indexed by `key`: find the first `prev` row with the same key value and
overlay its non-NA values on every column the base row has (the index
column itself is not a data column and is untouched).  Columns present
only in `prev` are NOT added.  The model assumes unique keys (duplicate
index labels make pandas raise instead). -/
def rowUpdate (key : String) (prows : List Row) (r : Row) : Row :=
  match Row.get? r key with
  | none => r
  | some kv =>
      match prows.find? (fun p => Row.get? p key == some kv) with
      | none => r
      | some pr =>
          r.map (fun p =>
            (p.1, if p.1 == key then p.2
                  else match Row.get? pr p.1 with
                       | some (.str s) => .str s
                       | _ => p.2))

/-- Lines 226-241: read the source, normalize column names, and when the
output file already exists and both frames carry the identifier column,
overlay the previous results via `DataFrame.update`. -/
def resumeMerge (base : DF) (prevFile : Option DF) : DF :=
  let b := normCols base
  match prevFile with
  | none => b
  | some prevRaw =>
      let p := normCols prevRaw
      let key := if "sku id" ∈ b.cols then "sku id" else "sku_id"
      if key ∈ b.cols ∧ key ∈ p.cols then
        ⟨b.cols, b.rows.map (rowUpdate key p.rows)⟩
      else b

/-- `_prepare` lines 248-249: required columns get
`fillna("").astype(str).str.strip()`. -/
def cleanRequired (req : List String) (df : DF) : DF :=
  ⟨df.cols,
   df.rows.map (fun r => r.map (fun p =>
     if p.1 ∈ req then
       (p.1, .str (match p.2 with | .str s => pyStrip s | .na => ""))
     else p))⟩

/-- One step of `_prepare` lines 250-252: create column `c` as an
all-empty column when absent. -/
def ensureStep (d : DF) (c : String) : DF :=
  if c ∈ d.cols then d
  else ⟨d.cols ++ [c], d.rows.map (fun r => r ++ [(c, .str "")])⟩

/-- `_prepare` lines 250-252: create each of `status`, `record_id`,
`error_message` as an all-empty column when absent. -/
def ensureTracked (df : DF) : DF :=
  ["status", "record_id", "error_message"].foldl ensureStep df

/-- The load pipeline settled by the resume claims: `__init__`s resume
merge followed by `_prepare`s required-column check (`.error` when a
required column is missing), required-column cleaning and tracked-column
creation.  The warehouse-mode identifier rewrites of lines 253-257 are
outside the claims and omitted. -/
def loadInit (req : List String) (base : DF) (prevFile : Option DF) :
    Except String DF :=
  let m := resumeMerge base prevFile
  if ∀ c ∈ req, c ∈ m.cols then
    .ok (ensureTracked (cleanRequired req m))
  else
    .error "Missing required column"

/-! ### Submit phase (`_skip`, `_update_row`, `run_updates`,
lines 264-318) -/

/-- `SKIP_STATUSES` (line 67). -/
def SKIP_STATUSES : List String := ["success", "failed", "fail", "updating"]

/-- `(row.get(c) or "").lower()`: a missing column or falsy value gives
`""`; a NaN cell is a truthy float, so `.lower()` raises. -/
def getOrEmptyLower (r : Row) (c : String) : Except String String :=
  match Row.get? r c with
  | none => .ok ""
  | some (.str s) => .ok (pyLower s)
  | some .na => .error "AttributeError: float object has no attribute lower"

/-- `(row.get(c) or "").strip()`, same NaN behaviour. -/
def getOrEmptyTrim (r : Row) (c : String) : Except String String :=
  match Row.get? r c with
  | none => .ok ""
  | some (.str s) => .ok (pyStrip s)
  | some .na => .error "AttributeError: float object has no attribute strip"

/-- `ProductBulkUpdater._skip(row)` (lines 264-266). -/
def skipCheck (row : Row) : Except String Bool :=
  (getOrEmptyLower row "status").map (fun st => SKIP_STATUSES.contains st)

/-- The result dict a worker returns for one row (`{"idx": ..., "skip":
True}` or `{"idx": ..., "status": ..., "record_id": ...,
"error_message": ...}`); `none` marks an absent key. -/
structure RowResult where
  skip : Bool
  status : Option String
  record_id : Option Json
  error_message : Option Json
deriving Repr

def skipRes : RowResult := ⟨true, none, none, none⟩

def failRes (e : Json) : RowResult := ⟨false, some "failed", none, some e⟩

def updatingRes (rid : Option Json) : RowResult := ⟨false, some "updating", rid, none⟩

def successRes : RowResult := ⟨false, some "success", none, none⟩

/-- The two remote operations used by `_update_row`; `.error` models a
raised exception carrying `str(e)`. -/
structure SubmitApi where
  search_product : String → Except String Dict
  update_product : Dict → Except String Dict

/-- `MODE_CONFIG[mode]["builder"]` (lines 202-211). -/
inductive Mode where
  | taobao : Mode
  | warehouse : Mode
deriving DecidableEq, Repr

def modeBuilder : Mode → Dict → String → Row → Dict → Option Dict
  | .taobao => build_payload_taobao
  | .warehouse => build_payload_warehouse

/-- `MODE_CONFIG[mode]["required"]`. -/
def modeRequired : Mode → List String
  | .taobao => ["sku id", "taobao_id"]
  | .warehouse => ["sku_id", "warehouse"]

/-- `ProductBulkUpdater._update_row(idx, row)` (lines 271-292), returning
the result together with the number of remote calls performed.  The
running flag is read once at entry (line 272).  A NaN SKU cell (truthy
in Python) would be passed to the search call; it is abstracted to the
string `"nan"`. -/
def updateRow (running : Bool) (mode : Mode) (template : Dict)
    (label : String) (api : SubmitApi) (row : Row) : RowResult × Nat :=
  if !running then (skipRes, 0)
  else
    match skipCheck row with
    | .error e => (failRes (.str e), 0)
    | .ok true => (skipRes, 0)
    | .ok false =>
        let sku_col := if (Row.get? row "sku id").isSome then "sku id" else "sku_id"
        let skuCell := Row.get? row sku_col
        -- `row.get(sku_col, "")` is falsy exactly for a missing column or
        -- an empty-string cell (a NaN cell is a truthy float)
        if skuCell = none ∨ skuCell = some (.str "") then
          (failRes (.str "Missing SKU"), 0)
        else
          let sku := match skuCell with
            | some (.str s) => s
            | some .na => "nan"
            | none => ""
          match api.search_product sku with
            | .error e => (failRes (.str e), 1)
            | .ok search_res =>
                match modeBuilder mode template label row search_res with
                | none => (failRes (.str "payload build error"), 1)
                | some payload =>
                    match api.update_product payload with
                    | .error e => (failRes (.str e), 2)
                    | .ok resp =>
                        match Dict.get? resp "status" with
                        | some (.num 1) =>
                            match Dict.get? resp "data" with
                            | none => (updatingRes none, 2)
                            | some (.obj d) => (updatingRes (Dict.get? d "recordId"), 2)
                            | some _ => (failRes (.str "TypeError"), 2)
                        | _ =>
                            let em :=
                              match Dict.get? resp "errorMessageList" with
                              | some j =>
                                  if jsonTruthy j then some j
                                  else Dict.get? resp "message"
                              | none => Dict.get? resp "message"
                            (⟨false, some "failed", none, em⟩, 2)

/-- The write-back done by `run_updates` for one completed result
(lines 300-309): skip results are dropped, otherwise `status` is
written, and `record_id`/`error_message` only when truthy (stringified). -/
def mergeResult (df : List Row) (i : Nat) (res : RowResult) : List Row :=
  if res.skip then df
  else
    match df.get? i with
    | none => df
    | some r =>
        let r1 := match res.status with
          | some s => Row.set r "status" (.str s)
          | none => r
        let r2 := match res.record_id with
          | some j => if jsonTruthy j then Row.set r1 "record_id" (.str (pyStr j)) else r1
          | none => r1
        let r3 := match res.error_message with
          | some j => if jsonTruthy j then Row.set r2 "error_message" (.str (pyStr j)) else r2
          | none => r2
        df.set i r3

/-- The submit phase restricted to one row: `_update_row` reads the
running flag at entry; `run_updates` (lines 298-309) then merges every
non-skip result without re-reading the flag — `runningAtMerge`, the
flag value when the completed result is acted on, is deliberately
unused, mirroring the absence of any check at the write-back. -/
def submitPhaseRow (runningAtEntry runningAtMerge : Bool) (mode : Mode)
    (template : Dict) (label : String) (api : SubmitApi)
    (df : List Row) (i : Nat) : List Row :=
  match df.get? i with
  | none => df
  | some row =>
      let r := updateRow runningAtEntry mode template label api row
      let _ := runningAtMerge
      mergeResult df i r.1

/-! ### Poll phase (`_status_row`, `poll`, lines 320-393) -/

/-- Message extraction of lines 338-343 (`rows = data[0].get("rows") or
[]` and the loop collecting truthy `errorMessage` values); `.error`
models an exception raised while iterating or joining (caught by the
surrounding `try`). -/
def extractMsgs (rowsV : Option Json) : Except String (List String) := do
  let l : List Json ←
    match rowsV with
    | none => .ok []
    | some j =>
        if jsonTruthy j then
          match j with
          | .arr l => .ok l
          | _ => .error "TypeError"
        else .ok []
  l.foldlM
    (fun acc r =>
      match r with
      | .obj o =>
          match Dict.get? o "errorMessage" with
          | some m =>
              if jsonTruthy m then
                match m with
                | .str s => .ok (acc ++ [s])
                | _ => .error "TypeError"
              else .ok acc
          | none => .ok acc
      | _ => .error "AttributeError")
    []

/-- `raw = (data[0].get("status") or "").lower()` (line 334): missing or
falsy values lower to `""`; a truthy non-string raises (caught by the
surrounding `try`). -/
def rawStatus (v : Option Json) : Except String String :=
  match v with
  | none => .ok ""
  | some v =>
      if jsonTruthy v then
        match v with
        | .str s => .ok (pyLower s)
        | _ => .error "AttributeError"
      else .ok ""

/-- Lines 330-350 of `_status_row`: interpreting a successful
`get_update_status` response.  All exceptions here are inside the `try`
and so fold into a `failed` result with the message. -/
def statusRowBody (resp : Dict) : RowResult :=
  match Dict.get? resp "data" with
  | none => failRes (.str "Empty status response")
  | some j =>
      if !(jsonTruthy j) then failRes (.str "Empty status response")
      else
        match j with
        | .arr (d0 :: _) =>
            match d0 with
            | .obj o =>
                match rawStatus (Dict.get? o "status") with
                | .error e => failRes (.str e)
                | .ok raw =>
                    if raw == "success" then successRes
                    else if raw == "fail" || raw == "failed" then
                      match extractMsgs (Dict.get? o "rows") with
                      | .error e => failRes (.str e)
                      | .ok msgs =>
                          let err := if msgs != [] then String.intercalate " | " msgs
                                     else "Update failed"
                          failRes (.str err)
                    else updatingRes none
            | _ => failRes (.str "AttributeError")
        | _ => failRes (.str "TypeError")

/-- `ProductBulkUpdater._status_row(idx, row)` (lines 320-350) with its
remote-call count.  Lines 323 and 326 run outside the `try`, so a NaN
`status` or `record_id` cell raises out of the worker (`.error`),
crashing the poll loop when its result is collected. -/
def statusRow (running : Bool) (api : String → Except String Dict)
    (row : Row) : Except String (RowResult × Nat) :=
  if !running then .ok (skipRes, 0)
  else
    match getOrEmptyLower row "status" with
    | .error e => .error e
    | .ok status =>
        if status != "updating" then .ok (skipRes, 0)
        else
          match getOrEmptyTrim row "record_id" with
          | .error e => .error e
          | .ok rid =>
              if rid == "" then .ok (failRes (.str "Missing record_id"), 0)
              else
                match api rid with
                | .error e => .ok (failRes (.str e), 1)
                | .ok resp => .ok (statusRowBody resp, 1)

/-- The pending mask `df["status"].str.lower() == STATUS_UPDATING`
(line 358) for one row; a NaN cell yields `False` in the mask. -/
def isUpdatingCell (r : Row) : Bool :=
  match Row.get? r "status" with
  | some (.str s) => pyLower s == "updating"
  | _ => false

/-- Indices of the rows selected for a poll round. -/
def pendingIdxs (df : List Row) : List Nat :=
  (List.range df.length).filter
    (fun i => match df.get? i with
              | some r => isUpdatingCell r
              | none => false)

/-- The write-back of one poll result (lines 372-378): `status` written
unconditionally for non-skip results, `error_message` only when truthy. -/
def mergePoll (df : List Row) (i : Nat) (res : RowResult) : List Row :=
  if res.skip then df
  else
    match df.get? i, res.status with
    | some r, some s =>
        let r1 := Row.set r "status" (.str s)
        let r2 := match res.error_message with
          | some j => if jsonTruthy j then Row.set r1 "error_message" (.str (pyStr j)) else r1
          | none => r1
        df.set i r2
    | _, _ => df

/-- Collect the `_status_row` results for the pending indices, in index
order; the first uncaught worker exception aborts the collection
(`.error`). -/
def collectStatuses (running : Bool) (api : String → Except String Dict)
    (df : List Row) : List Nat → Except String (List (Nat × (RowResult × Nat)))
  | [] => .ok []
  | i :: rest =>
      let one : Except String (RowResult × Nat) :=
        match df.get? i with
        | some r => statusRow running api r
        | none => .ok (skipRes, 0)
      match one with
      | .error e => .error e
      | .ok p =>
          match collectStatuses running api df rest with
          | .error e => .error e
          | .ok ps => .ok ((i, p) :: ps)

/-- One poll round (lines 366-387): dispatch `_status_row` over the
pending snapshot and merge the results.  `as_completed` yields results
in a nondeterministic order; merges at distinct indices commute, and an
uncaught worker exception aborts the collection loop — the model fixes
the index-order linearization.  Returns the new frame and the total
number of remote status calls. -/
def pollRound (running : Bool) (api : String → Except String Dict)
    (df : List Row) : Except String (List Row × Nat) :=
  match collectStatuses running api df (pendingIdxs df) with
  | .error e => .error e
  | .ok results =>
      .ok (results.foldl (fun d pr => mergePoll d pr.1 pr.2.1) df,
           results.foldl (fun n pr => n + pr.2.2) 0)

/-- `max_retries is not None and attempt >= max_retries` (line 363). -/
def maxReached (m : Option Nat) (attempt : Nat) : Bool :=
  match m with
  | some mr => decide (attempt ≥ mr)
  | none => false

/-- `ProductBulkUpdater.poll` (lines 352-393) as a fuelled loop.
`api round record_id` is the status response in round `round` (0-based
attempt counter value before its increment); `m` is `max_retries`.
Returns the final frame, the number of rounds executed, and the number
of sleeps performed.  Fuel only makes the recursion total; every theorem
below supplies enough of it. -/
def pollLoop (running : Bool) (api : Nat → String → Except String Dict)
    (m : Option Nat) : Nat → Nat → List Row → Except String (List Row × Nat × Nat)
  | 0, _, df => .ok (df, 0, 0)
  | fuel + 1, attempt, df =>
      if !running then .ok (df, 0, 0)
      else if pendingIdxs df == [] then .ok (df, 0, 0)
      else if maxReached m attempt then
        .ok (df, 0, 0)
      else do
        let pr ← pollRound running (api attempt) df
        if pendingIdxs pr.1 == [] then .ok (pr.1, 1, 0)
        else do
          let rest ← pollLoop running api m fuel (attempt + 1) pr.1
          .ok (rest.1, rest.2.1 + 1, rest.2.2 + 1)

/-! ## Dictionary lemmas -/

theorem Dict.get?_nil (k : String) : Dict.get? [] k = none := rfl

theorem Dict.hasKey_eq_isSome (d : Dict) (k : String) :
    Dict.hasKey d k = (Dict.get? d k).isSome := by
  simp [Dict.hasKey, Dict.get?]

theorem Dict.get?_cons (a : String × Json) (t : Dict) (k : String) :
    Dict.get? (a :: t) k = if a.1 == k then some a.2 else Dict.get? t k := by
  cases h : a.1 == k <;> simp [Dict.get?, List.find?_cons, h]

theorem Dict.set_cons (a : String × Json) (t : Dict) (k : String) (v : Json) :
    Dict.set (a :: t) k v = if a.1 == k then (k, v) :: t else a :: Dict.set t k v := rfl

theorem Dict.pop_cons (a : String × Json) (t : Dict) (k : String) :
    Dict.pop (a :: t) k = if a.1 == k then Dict.pop t k else a :: Dict.pop t k := by
  cases h : a.1 == k <;> simp [Dict.pop, List.filter_cons, h]

theorem Dict.get?_set_self (d : Dict) (k : String) (v : Json) :
    Dict.get? (Dict.set d k v) k = some v := by
  induction d with
  | nil => simp [Dict.set, Dict.get?_cons]
  | cons a t ih =>
      rw [Dict.set_cons]
      cases ha : a.1 == k
      · rw [if_neg (by simp [ha]), Dict.get?_cons, if_neg (by simp [ha])]
        exact ih
      · rw [if_pos (by simp), Dict.get?_cons, if_pos (by simp)]

theorem Dict.get?_set_ne (d : Dict) (k k2 : String) (v : Json) (h : k2 ≠ k) :
    Dict.get? (Dict.set d k v) k2 = Dict.get? d k2 := by
  have hkk : (k == k2) = false := beq_eq_false_iff_ne.mpr (Ne.symm h)
  induction d with
  | nil => simp [Dict.set, Dict.get?_cons, hkk]
  | cons a t ih =>
      rw [Dict.set_cons]
      cases ha : a.1 == k
      · rw [if_neg (by simp [ha]), Dict.get?_cons, Dict.get?_cons]
        cases hb : a.1 == k2
        · rw [if_neg (by simp [hb]), if_neg (by simp [hb])]
          exact ih
        · rw [if_pos (by simp [hb]), if_pos (by simp [hb])]
      · rw [if_pos (by simp), Dict.get?_cons, Dict.get?_cons, hkk]
        have haeq : a.1 = k := by simpa using ha
        have hb : (a.1 == k2) = false := by
          rw [haeq]; exact hkk
        rw [if_neg (by simp), if_neg (by simp [hb])]

theorem Dict.get?_pop_self (d : Dict) (k : String) :
    Dict.get? (Dict.pop d k) k = none := by
  induction d with
  | nil => rfl
  | cons a t ih =>
      rw [Dict.pop_cons]
      cases ha : a.1 == k
      · rw [if_neg (by simp [ha]), Dict.get?_cons, if_neg (by simp [ha])]
        exact ih
      · rw [if_pos (by simp)]
        exact ih

theorem Dict.get?_pop_ne (d : Dict) (k k2 : String) (h : k2 ≠ k) :
    Dict.get? (Dict.pop d k) k2 = Dict.get? d k2 := by
  induction d with
  | nil => rfl
  | cons a t ih =>
      rw [Dict.pop_cons]
      cases ha : a.1 == k
      · rw [if_neg (by simp [ha]), Dict.get?_cons, Dict.get?_cons]
        cases hb : a.1 == k2
        · rw [if_neg (by simp [hb]), if_neg (by simp [hb])]
          exact ih
        · rw [if_pos (by simp [hb]), if_pos (by simp [hb])]
      · rw [if_pos (by simp), Dict.get?_cons]
        have haeq : a.1 = k := by simpa using ha
        have hb : (a.1 == k2) = false := by
          rw [haeq]
          exact beq_eq_false_iff_ne.mpr (Ne.symm h)
        rw [if_neg (by simp [hb])]
        exact ih

theorem hktvOf_buildTail (t p1 add h2 : Dict) :
    hktvOf (buildTail t p1 add h2) = some h2 := by
  simp [hktvOf, buildTail, Dict.get?_set_self]

/-- The `hktv` block after the mode branch: a truthy warehouse id keeps
`warehouse_id` and drops `external_platform`; a falsy one does the
opposite. -/
theorem modeBranch_warehouse_keys (label : String) (tid tsk : Option String)
    (w : String) (hw : w ≠ "") (hktv : Dict) :
    Dict.hasKey (modeBranch label tid tsk (some w) hktv) "warehouse_id" = true ∧
    Dict.hasKey (modeBranch label tid tsk (some w) hktv) "external_platform" = false := by
  have hw2 : (w == "") = false := by simp [hw]
  simp only [modeBranch]
  rw [if_neg (by simp [hw2])]
  constructor
  · rw [Dict.hasKey_eq_isSome, Dict.get?_pop_ne _ _ _ (by decide), Dict.get?_set_self]
    rfl
  · rw [Dict.hasKey_eq_isSome, Dict.get?_pop_self]
    rfl

theorem modeBranch_marketplace_keys (label : String) (tid tsk : Option String)
    (hktv : Dict) :
    Dict.hasKey (modeBranch label tid tsk none hktv) "warehouse_id" = false ∧
    Dict.hasKey (modeBranch label tid tsk none hktv) "external_platform" = true := by
  simp only [modeBranch]
  constructor
  · rw [Dict.hasKey_eq_isSome, Dict.get?_set_ne _ _ _ _ (by decide), Dict.get?_pop_self]
    rfl
  · rw [Dict.hasKey_eq_isSome, Dict.get?_set_self]
    rfl

/-- Every successful `build` produces a payload whose `hktv` block is
exactly the mode branch applied to the template/search `hktv` block. -/
theorem build_hktv (template : Dict) (label : String) (sr : Dict)
    (tid tsk wid : Option String) (pl : Dict)
    (h : PayloadGenerator.build template label sr tid tsk wid = some pl) :
    ∃ hktv : Dict, hktvOf pl = some (modeBranch label tid tsk wid hktv) := by
  unfold PayloadGenerator.build at h
  dsimp only at h
  iterate 5 (all_goals try split at h)
  any_goals exact Option.noConfusion h
  all_goals exact ⟨_, by rw [← Option.some.inj h, hktvOf_buildTail]⟩

theorem hktvHasKey_eq (pl h2 : Dict) (k : String) (h : hktvOf pl = some h2) :
    hktvHasKey pl k = Dict.hasKey h2 k := by
  simp [hktvHasKey, h]

/-! ## C1: mode exclusivity of the built payload -/

/-- A minimal template on which `build` succeeds. -/
def c1Template : Dict := [("product", .obj [])]

/-- A minimal search result with one (empty) record. -/
def c1Search : Dict := [("data", .arr [.obj []])]

/-- A warehouse-mode row whose `warehouse` value is the empty string. -/
def c1RowEmptyWh : Row := [("warehouse", .str "")]

/-- A warehouse-mode row with a non-empty warehouse value. -/
def c1RowWh : Row := [("warehouse", .str "W1")]

/-- A taobao-mode row. -/
def c1RowTb : Row := [("taobao_id", .str "123"), ("taobao_sku_id", .str "")]

/-- The payload built for `c1RowWh`. -/
def c1PayloadWh : Dict :=
  (build_payload_warehouse c1Template "tmall" c1RowWh c1Search).getD []

/-- The payload built for `c1RowTb`. -/
def c1PayloadTb : Dict :=
  (build_payload_taobao c1Template "tmall" c1RowTb c1Search).getD []

/-- C1, counterexample.  The claim asserts that the warehouse-mode
payload never contains `external_platform` "for every value of the row's
warehouse column, including the empty string".  False: with an
empty-string warehouse value the builder takes the falsy branch of
`if warehouse_id:` (line 172) and installs `external_platform` into the
payload. -/
theorem C1_counterexample :
    Row.getStr? c1RowEmptyWh "warehouse" = some "" ∧
    (build_payload_warehouse c1Template "tmall" c1RowEmptyWh c1Search).map
      (fun pl => hktvHasKey pl "external_platform") = some true := by
  exact ⟨rfl, rfl⟩

/-- C1, amended: for every template, search result and row, a payload
built in warehouse mode with a NON-EMPTY warehouse value contains the
`warehouse_id` field and not the `external_platform` field of its `hktv`
block (an empty warehouse value instead falls into the marketplace
branch), and a payload built in marketplace (taobao) mode never contains
the `warehouse_id` field and always contains `external_platform`. -/
theorem C1_mode_exclusivity_amended :
    (∀ (template : Dict) (label : String) (row : Row) (res : Dict) (w : String) (pl : Dict),
        Row.getStr? row "warehouse" = some w → w ≠ "" →
        build_payload_warehouse template label row res = some pl →
        hktvHasKey pl "warehouse_id" = true ∧
        hktvHasKey pl "external_platform" = false) ∧
    (∀ (template : Dict) (label : String) (row : Row) (res : Dict) (pl : Dict),
        build_payload_taobao template label row res = some pl →
        hktvHasKey pl "warehouse_id" = false ∧
        hktvHasKey pl "external_platform" = true) := by
  constructor
  · intro template label row res w pl hw hne h
    unfold build_payload_warehouse at h
    rw [hw] at h
    obtain ⟨hk, hhk⟩ := build_hktv _ _ _ _ _ _ _ h
    rw [hktvHasKey_eq pl _ _ hhk, hktvHasKey_eq pl _ _ hhk]
    exact modeBranch_warehouse_keys label none none w hne hk
  · intro template label row res pl h
    unfold build_payload_taobao at h
    obtain ⟨hk, hhk⟩ := build_hktv _ _ _ _ _ _ _ h
    rw [hktvHasKey_eq pl _ _ hhk, hktvHasKey_eq pl _ _ hhk]
    exact modeBranch_marketplace_keys label _ _ hk

/-- Witness for C1 at concrete inputs. -/
theorem C1_mode_exclusivity_witness :
    (hktvHasKey c1PayloadWh "warehouse_id" = true ∧
     hktvHasKey c1PayloadWh "external_platform" = false) ∧
    (hktvHasKey c1PayloadTb "warehouse_id" = false ∧
     hktvHasKey c1PayloadTb "external_platform" = true) :=
  ⟨C1_mode_exclusivity_amended.1 c1Template "tmall" c1RowWh c1Search "W1" c1PayloadWh
      rfl (by decide) rfl,
   C1_mode_exclusivity_amended.2 c1Template "tmall" c1RowTb c1Search c1PayloadTb rfl⟩

/-! ## C7: default output path -/

theorem replaceXlsxF_nil (f : Nat) : replaceXlsxF f [] = [] := by
  cases f <;> rfl

theorem replaceXlsxF_no_occ :
    ∀ (f : Nat) (s : List Char), s.length ≤ f →
      (∀ p < s.length, ¬ xlsxAt s p) → replaceXlsxF f s = s := by
  intro f
  induction f with
  | zero => intro s _ _; rfl
  | succ f ih =>
      intro s hs h
      cases s with
      | nil => rfl
      | cons c cs =>
          have h0 : ¬ ((".xlsx".data).isPrefixOf (c :: cs) = true) := by
            have := h 0 (by simp)
            simpa [xlsxAt] using this
          simp only [replaceXlsxF]
          rw [if_neg h0]
          congr 1
          apply ih
          · simp only [List.length_cons] at hs
            omega
          · intro p hp
            have := h (p + 1) (by simp only [List.length_cons]; omega)
            simpa [xlsxAt, List.drop_succ_cons] using this

theorem replaceXlsxF_append :
    ∀ (f : Nat) (b : List Char), (b ++ ".xlsx".data).length ≤ f →
      (∀ p < b.length, ¬ xlsxAt (b ++ ".xlsx".data) p) →
      replaceXlsxF f (b ++ ".xlsx".data) = b ++ "_result.xlsx".data := by
  intro f
  induction f with
  | zero =>
      intro b hs _
      exfalso
      simp [List.length_append] at hs
  | succ f ih =>
      intro b hs h
      cases b with
      | nil =>
          show replaceXlsxF (f + 1) ('.' :: 'x' :: 'l' :: 's' :: 'x' :: []) = _
          simp only [replaceXlsxF]
          rw [if_pos (by decide)]
          simp [replaceXlsxF_nil]
      | cons c b2 =>
          have h0 : ¬ ((".xlsx".data).isPrefixOf (c :: (b2 ++ ".xlsx".data)) = true) := by
            have := h 0 (by simp)
            simpa [xlsxAt] using this
          simp only [List.cons_append, replaceXlsxF]
          split
          · rename_i hcond
            exact absurd hcond h0
          show c :: replaceXlsxF f (b2 ++ ".xlsx".data) =
            c :: (b2 ++ "_result.xlsx".data)
          congr 1
          apply ih
          · have hs2 : (c :: (b2 ++ ".xlsx".data)).length ≤ f + 1 := hs
            simp only [List.length_cons] at hs2
            exact Nat.le_of_succ_le_succ hs2
          · intro p hp
            have := h (p + 1) (by simp only [List.length_cons]; omega)
            simpa [xlsxAt, List.drop_succ_cons] using this

/-- C7, counterexample.  The claim asserts the default output path is
`<input-base-name>_result.<ext>` "for both .xlsx and .xls inputs, and
this output path differs from the input path".  False for a `.xls`
input: `"data.xls".replace(".xlsx", "_result.xlsx")` finds nothing to
replace, so the default output path is the input path itself. -/
theorem C7_counterexample :
    defaultOutputFile "data.xls" = "data.xls" ∧
    "data.xls" ≠ "data_result.xls" :=
  ⟨rfl, by decide⟩

/-- C7, amended: the default output path is the input path with every
occurrence of ".xlsx" replaced by "_result.xlsx".  For an input ending
in ".xlsx" with no other occurrence of ".xlsx", this appends "_result"
before the extension and differs from the input path; for an input
containing no ".xlsx" at all — in particular any ".xls" input — the
default output path equals the input path. -/
theorem C7_output_path_amended :
    (∀ b : String, (∀ p < b.data.length, ¬ xlsxAt (b.data ++ ".xlsx".data) p) →
        defaultOutputFile (b ++ ".xlsx") = b ++ "_result.xlsx" ∧
        b ++ "_result.xlsx" ≠ b ++ ".xlsx") ∧
    (∀ s : String, (∀ p < s.data.length, ¬ xlsxAt s.data p) →
        defaultOutputFile s = s) := by
  constructor
  · intro b h
    constructor
    · apply String.ext
      show replaceXlsx (b.data ++ ".xlsx".data) = b.data ++ "_result.xlsx".data
      unfold replaceXlsx
      exact replaceXlsxF_append _ _ (le_refl _) h
    · intro heq
      have hd : b.data ++ "_result.xlsx".data = b.data ++ ".xlsx".data :=
        congrArg String.data heq
      have := List.append_cancel_left hd
      exact absurd this (by decide)
  · intro s h
    apply String.ext
    show replaceXlsx s.data = s.data
    unfold replaceXlsx
    exact replaceXlsxF_no_occ _ _ (le_refl _) h

/-- Witness for C7 at concrete inputs. -/
theorem C7_output_path_witness :
    (defaultOutputFile ("data" ++ ".xlsx") = "data" ++ "_result.xlsx" ∧
     "data" ++ "_result.xlsx" ≠ "data" ++ ".xlsx") ∧
    defaultOutputFile "report.xls" = "report.xls" :=
  ⟨C7_output_path_amended.1 "data" (by decide),
   C7_output_path_amended.2 "report.xls" (by decide)⟩

/-! ## C9: retry with exponential backoff -/

theorem attemptResult_eq_none (o : HttpOutcome) (h : o.isFail = true) :
    attemptResult o = none := by
  cases o with
  | resp code text j =>
      simp only [HttpOutcome.isFail, bne_iff_ne, ne_eq] at h
      simp [attemptResult, h]
  | exn msg => rfl

theorem requestLoop_all_fail (method url : String) (mr : Nat) (b : ℚ)
    (oc : Nat → HttpOutcome) :
    ∀ (n i : Nat) (d : ℚ), mr - 1 - i = n → i < mr →
      (∀ j < mr, (oc j).isFail = true) →
      requestLoop method url mr b oc i d =
        ⟨.error ("Request failed after " ++ toString mr ++ " attempts: "
            ++ failMsg method url (oc (mr - 1))),
         (List.range (mr - 1 - i)).map (fun k => d * b ^ k),
         ((List.range' i (mr - i)).filter (fun j => (oc j).is401)).length⟩ := by
  intro n
  induction n with
  | zero =>
      intro i d hn hi hf
      have hmr : mr = i + 1 := by omega
      rw [requestLoop]
      rw [attemptResult_eq_none _ (hf i hi)]
      dsimp only
      rw [if_pos (by omega)]
      subst hmr
      have h1 : i + 1 - 1 - i = 0 := by omega
      have h2 : i + 1 - i = 1 := by omega
      have h3 : i + 1 - 1 = i := by omega
      rw [h1, h2, h3, List.range_zero, List.range'_one, List.map_nil]
      cases h401 : (oc i).is401 <;> simp [h401]
  | succ n ih =>
      intro i d hn hi hf
      have hlt : i + 1 < mr := by omega
      rw [requestLoop]
      rw [attemptResult_eq_none _ (hf i hi)]
      dsimp only
      rw [if_neg (by omega)]
      rw [ih (i + 1) (d * b) (by omega) hlt hf]
      dsimp only
      have hrange : mr - 1 - i = (mr - 1 - (i + 1)) + 1 := by omega
      have hsleeps :
          d :: (List.range (mr - 1 - (i + 1))).map (fun k => d * b * b ^ k) =
            (List.range (mr - 1 - i)).map (fun k => d * b ^ k) := by
        rw [hrange, List.range_succ_eq_map, List.map_cons, List.map_map]
        congr 1
        · rw [pow_zero, mul_one]
        · apply List.map_congr_left
          intro k _
          simp only [Function.comp_apply, pow_succ]
          ring
      have hrefresh :
          (if (oc i).is401 then 1 else 0) +
              ((List.range' (i + 1) (mr - (i + 1))).filter
                (fun j => (oc j).is401)).length =
            ((List.range' i (mr - i)).filter (fun j => (oc j).is401)).length := by
        have hmi : mr - i = (mr - (i + 1)) + 1 := by omega
        rw [hmi, List.range'_succ]
        cases h401 : (oc i).is401 <;>
          simp [List.filter_cons, h401, Nat.add_comm]
      rw [hsleeps, hrefresh]

/-- C9: for every remote call whose attempts all fail (non-2xx responses
or transport errors), `_request` performs exactly `max_retries` attempts
with exponential backoff — the sleeps between attempts are
`1, backoff, backoff^2, ...` — and then fails with an error naming the
attempt count and carrying the detail of the last failure (method, URL,
status and body for an HTTP failure).  An HTTP 401 response triggers one
token refresh and then counts as an ordinary retryable failed attempt:
the loop still runs all `max_retries` attempts. -/
theorem C9_retry_backoff (method url : String) (mr : Nat) (b : ℚ)
    (oc : Nat → HttpOutcome) (hmr : 0 < mr)
    (hf : ∀ j < mr, (oc j).isFail = true) :
    pyRequest method url mr b oc =
      ⟨.error ("Request failed after " ++ toString mr ++ " attempts: "
          ++ failMsg method url (oc (mr - 1))),
       (List.range (mr - 1)).map (fun k => b ^ k),
       ((List.range mr).filter (fun j => (oc j).is401)).length⟩ := by
  unfold pyRequest
  rw [requestLoop_all_fail method url mr b oc (mr - 1 - 0) 0 1 rfl hmr hf]
  simp [List.range_eq_range']

/-- The concrete attempt outcomes for the C9 witness: a 401, then a
transport error, then a 500. -/
def c9Outcomes : Nat → HttpOutcome
  | 0 => .resp 401 "unauthorized" []
  | 1 => .exn "connection reset"
  | _ => .resp 500 "server error" []

/-- Witness for C9 at concrete inputs (`max_retries = 3`,
`backoff = 3/2`). -/
theorem C9_retry_backoff_witness :
    pyRequest "POST" "https://api/edit" 3 (3 / 2) c9Outcomes =
      ⟨.error ("Request failed after " ++ toString 3 ++ " attempts: "
          ++ failMsg "POST" "https://api/edit" (c9Outcomes (3 - 1))),
       (List.range (3 - 1)).map (fun k => (3 / 2 : ℚ) ^ k),
       ((List.range 3).filter (fun j => (c9Outcomes j).is401)).length⟩ :=
  C9_retry_backoff "POST" "https://api/edit" 3 (3 / 2) c9Outcomes
    (by decide) (by decide)

/-! ## Row lemmas -/

theorem rowGet_cons (a : String × Cell) (t : Row) (c : String) :
    Row.get? (a :: t) c = if a.1 == c then some a.2 else Row.get? t c := by
  cases h : a.1 == c <;> simp [Row.get?, List.find?_cons, h]

theorem rowGet_set_self (r : Row) (c : String) (v : Cell) :
    Row.get? (Row.set r c v) c = some v := by
  induction r with
  | nil => simp [Row.set, rowGet_cons]
  | cons a t ih =>
      rw [Row.set]
      cases ha : a.1 == c
      · rw [if_neg (by simp [ha]), rowGet_cons, if_neg (by simp [ha])]
        exact ih
      · rw [if_pos (by simp), rowGet_cons, if_pos (by simp)]

theorem rowGet_set_ne (r : Row) (c c2 : String) (v : Cell) (h : c2 ≠ c) :
    Row.get? (Row.set r c v) c2 = Row.get? r c2 := by
  have hkk : (c == c2) = false := beq_eq_false_iff_ne.mpr (Ne.symm h)
  induction r with
  | nil => simp [Row.set, rowGet_cons, hkk]
  | cons a t ih =>
      rw [Row.set]
      cases ha : a.1 == c
      · rw [if_neg (by simp [ha]), rowGet_cons, rowGet_cons]
        cases hb : a.1 == c2
        · rw [if_neg (by simp [hb]), if_neg (by simp [hb])]
          exact ih
        · rw [if_pos (by simp [hb]), if_pos (by simp [hb])]
      · rw [if_pos (by simp), rowGet_cons, rowGet_cons, hkk]
        have haeq : a.1 = c := by simpa using ha
        have hb : (a.1 == c2) = false := by rw [haeq]; exact hkk
        rw [if_neg (by simp), if_neg (by simp [hb])]

theorem get?_lt_length {α : Type} (l : List α) (i : Nat) (a : α)
    (h : l.get? i = some a) : i < l.length := by
  by_contra hc
  push_neg at hc
  rw [List.get?_eq_none.mpr hc] at h
  exact Option.noConfusion h

/-! ## C2: cancellation does not discard in-flight results -/

/-- The submit-side remote API used by the C2 counterexample: the search
call fails with a transport error. -/
def c2Api : SubmitApi :=
  ⟨fun _ => .error "connection reset", fun _ => .error "connection reset"⟩

/-- The single-row frame used by the C2 counterexample. -/
def c2Df : List Row :=
  [[("sku id", .str "A"), ("status", .str ""), ("record_id", .str ""),
    ("error_message", .str "")]]

/-- C2, counterexample.  The claim asserts that a row whose remote call
was in flight when cancellation occurred (running flag `true` at the
worker's entry check, `false` by the time the completed result is acted
on) has its result discarded and its columns left unchanged.  False:
`run_updates` (lines 298-309) merges every non-skip result without
re-reading the flag, so the completed result is written back — here the
row's `status` becomes `failed` and its `error_message` is filled. -/
theorem C2_counterexample :
    submitPhaseRow true false Mode.taobao [] "tmall" c2Api c2Df 0 =
      [[("sku id", .str "A"), ("status", .str "failed"), ("record_id", .str ""),
        ("error_message", .str "connection reset")]] ∧
    submitPhaseRow true false Mode.taobao [] "tmall" c2Api c2Df 0 ≠ c2Df := by
  exact ⟨by decide, by decide⟩

/-- C2, amended: only rows whose worker observed the cancelled flag at
entry (before any remote call was dispatched) are skipped and left
unchanged; a row already past the entry check has its completed result
written back normally even after cancellation. -/
theorem C2_cancellation_amended :
    ∀ (b : Bool) (mode : Mode) (template : Dict) (label : String)
      (api : SubmitApi) (df : List Row) (i : Nat),
      submitPhaseRow false b mode template label api df i = df := by
  intro b mode template label api df i
  unfold submitPhaseRow
  cases hdf : df.get? i
  · rfl
  · simp [updateRow, mergeResult, skipRes]

/-! ## C4: terminal/updating rows are skipped by the submit phase and
success/failed rows are untouched by polling -/

theorem mergePoll_get_ne (d : List Row) (j i : Nat) (res : RowResult)
    (h : j ≠ i) : (mergePoll d j res).get? i = d.get? i := by
  unfold mergePoll
  split
  · rfl
  · split
    · exact List.get?_set_ne _ _ h
    · rfl

theorem mergeFold_get_ne :
    ∀ (results : List (Nat × (RowResult × Nat))) (d : List Row) (i : Nat),
      (∀ pr ∈ results, pr.1 ≠ i) →
      (results.foldl (fun d pr => mergePoll d pr.1 pr.2.1) d).get? i = d.get? i := by
  intro results
  induction results with
  | nil => intro d i _; rfl
  | cons pr rest ih =>
      intro d i h
      rw [List.foldl_cons]
      rw [ih _ _ (fun q hq => h q (List.mem_cons_of_mem pr hq))]
      exact mergePoll_get_ne d pr.1 i pr.2.1 (h pr (List.mem_cons_self pr rest))

theorem collectStatuses_fst_mem :
    ∀ (running : Bool) (api : String → Except String Dict) (df : List Row)
      (l : List Nat) (results : List (Nat × (RowResult × Nat))),
      collectStatuses running api df l = .ok results →
      ∀ pr ∈ results, pr.1 ∈ l := by
  intro running api df l
  induction l with
  | nil =>
      intro results h pr hpr
      cases h
      simp at hpr
  | cons a t ih =>
      intro results h pr hpr
      unfold collectStatuses at h
      dsimp only at h
      cases h1 : (match df.get? a with
                  | some r => statusRow running api r
                  | none => .ok (skipRes, 0)) with
      | error e => rw [h1] at h; exact Except.noConfusion h
      | ok p =>
          rw [h1] at h
          cases h2 : collectStatuses running api df t with
          | error e => rw [h2] at h; exact Except.noConfusion h
          | ok ps =>
              rw [h2] at h
              cases h
              rcases List.mem_cons.mp hpr with hh | hmem
              · subst hh
                exact List.mem_cons_self a t
              · exact List.mem_cons_of_mem a (ih ps h2 pr hmem)

/-- Rows not selected by the pending mask are untouched by a poll
round. -/
theorem pollRound_not_pending (api : String → Except String Dict)
    (df : List Row) (i : Nat) (hni : i ∉ pendingIdxs df)
    (df2 : List Row) (calls : Nat)
    (h : pollRound true api df = .ok (df2, calls)) :
    df2.get? i = df.get? i := by
  unfold pollRound at h
  cases hm : collectStatuses true api df (pendingIdxs df) with
  | error e => rw [hm] at h; exact Except.noConfusion h
  | ok results =>
      rw [hm] at h
      cases h
      apply mergeFold_get_ne
      intro pr hpr heq
      exact hni (heq ▸ collectStatuses_fst_mem _ _ _ _ _ hm pr hpr)

/-- A row whose status makes `_skip` return true. -/
theorem updateRow_skip (mode : Mode) (template : Dict) (label : String)
    (api : SubmitApi) (row : Row) (st : String)
    (hst : Row.get? row "status" = some (.str st))
    (hskip : SKIP_STATUSES.contains (pyLower st) = true) :
    updateRow true mode template label api row = (skipRes, 0) := by
  have hs : skipCheck row = .ok true := by
    unfold skipCheck getOrEmptyLower
    rw [hst]
    dsimp only [Except.map]
    rw [hskip]
  simp [updateRow, hs]

/-- C4: a row whose status column at load time holds a terminal or
updating value (`success`, `failed`, `fail`, `updating`, case
insensitively) is skipped by the submit phase — `_update_row` performs
zero remote calls and `run_updates` writes nothing back, leaving the
frame unchanged — and a row whose status is any non-`updating` string
(in particular `success`/`failed`) is never selected by a poll round,
whose merge leaves that row unchanged.  Consequently a second run over
the same output file leaves all `success`/`failed` rows unchanged. -/
theorem C4_terminal_rows_skipped :
    (∀ (mode : Mode) (template : Dict) (label : String) (api : SubmitApi)
       (df : List Row) (i : Nat) (row : Row) (st : String),
       df.get? i = some row →
       Row.get? row "status" = some (.str st) →
       SKIP_STATUSES.contains (pyLower st) = true →
       updateRow true mode template label api row = (skipRes, 0) ∧
       submitPhaseRow true true mode template label api df i = df) ∧
    (∀ (api : String → Except String Dict) (df : List Row) (i : Nat)
       (row : Row) (st : String) (df2 : List Row) (calls : Nat),
       df.get? i = some row →
       Row.get? row "status" = some (.str st) →
       pyLower st ≠ "updating" →
       pollRound true api df = .ok (df2, calls) →
       df2.get? i = df.get? i) := by
  constructor
  · intro mode template label api df i row st hdf hst hskip
    have hu := updateRow_skip mode template label api row st hst hskip
    refine ⟨hu, ?_⟩
    unfold submitPhaseRow
    rw [hdf]
    dsimp only
    rw [hu]
    simp [mergeResult, skipRes]
  · intro api df i row st df2 calls hdf hst hne hpoll
    have hni : i ∉ pendingIdxs df := by
      intro hmem
      unfold pendingIdxs at hmem
      rw [List.mem_filter] at hmem
      obtain ⟨-, hp⟩ := hmem
      rw [hdf] at hp
      dsimp only at hp
      unfold isUpdatingCell at hp
      rw [hst] at hp
      exact hne (by simpa using hp)
    exact pollRound_not_pending api df i hni df2 calls hpoll

/-- A stub remote API for witnesses. -/
def apiStub : SubmitApi := ⟨fun _ => .error "stub", fun _ => .error "stub"⟩

/-- A stub status API for witnesses. -/
def statusApiStub : String → Except String Dict := fun _ => .error "stub"

/-- The row used by the C4 witness: already `success` at load time. -/
def c4Row : Row :=
  [("sku id", .str "A"), ("status", .str "success"),
   ("record_id", .str "r1"), ("error_message", .str "")]

def c4Df : List Row := [c4Row]

/-- Witness for C4 at concrete inputs. -/
theorem C4_terminal_rows_skipped_witness :
    (updateRow true Mode.taobao [] "tmall" apiStub c4Row = (skipRes, 0) ∧
     submitPhaseRow true true Mode.taobao [] "tmall" apiStub c4Df 0 = c4Df) ∧
    c4Df.get? 0 = c4Df.get? 0 :=
  ⟨C4_terminal_rows_skipped.1 Mode.taobao [] "tmall" apiStub c4Df 0 c4Row "success"
      rfl rfl (by decide),
   C4_terminal_rows_skipped.2 statusApiStub c4Df 0 c4Row "success" c4Df 0
      rfl rfl (by decide) rfl⟩

/-! ## C6: empty identifier fails without a remote call -/

/-- C6: for every row that is not skipped (status not terminal/updating)
and whose identifier cell — `sku id` when that column exists, `sku_id`
otherwise — is the empty string, `_update_row` returns a `failed` result
carrying the missing-identifier message `"Missing SKU"` and performs
zero remote calls, and the submit-phase write-back marks the row
`failed` with that message. -/
theorem C6_missing_sku (mode : Mode) (template : Dict) (label : String)
    (api : SubmitApi) (df : List Row) (i : Nat) (row : Row)
    (hdf : df.get? i = some row)
    (hskip : skipCheck row = .ok false)
    (hsku : Row.get? row
        (if (Row.get? row "sku id").isSome then "sku id" else "sku_id") =
      some (.str "")) :
    updateRow true mode template label api row = (failRes (.str "Missing SKU"), 0) ∧
    ∃ r2, (submitPhaseRow true true mode template label api df i).get? i = some r2 ∧
      Row.get? r2 "status" = some (.str "failed") ∧
      Row.get? r2 "error_message" = some (.str "Missing SKU") := by
  have hu : updateRow true mode template label api row =
      (failRes (.str "Missing SKU"), 0) := by
    simp [updateRow, hskip, hsku]
  refine ⟨hu, ?_⟩
  have hlt : i < df.length := get?_lt_length df i row hdf
  have hm : submitPhaseRow true true mode template label api df i =
      df.set i (Row.set (Row.set row "status" (.str "failed"))
        "error_message" (.str "Missing SKU")) := by
    have hdf2 : df[i]? = some row := by
      simpa [List.get?_eq_getElem?] using hdf
    unfold submitPhaseRow
    rw [hdf]
    dsimp only
    rw [hu]
    simp [mergeResult, failRes, hdf2, pyStr, jsonTruthy]
  rw [hm]
  refine ⟨_, List.get?_set_eq_of_lt _ hlt, ?_, ?_⟩
  · rw [rowGet_set_ne _ _ _ _ (by decide), rowGet_set_self]
  · rw [rowGet_set_self]

/-- The row used by the C6 witness: empty `sku_id`, blank status. -/
def c6Row : Row := [("sku_id", .str ""), ("status", .str "")]

def c6Df : List Row := [c6Row]

/-- Witness for C6 at concrete inputs. -/
theorem C6_missing_sku_witness :
    updateRow true Mode.warehouse [] "tmall" apiStub c6Row =
      (failRes (.str "Missing SKU"), 0) ∧
    ∃ r2, (submitPhaseRow true true Mode.warehouse [] "tmall" apiStub c6Df 0).get? 0 =
        some r2 ∧
      Row.get? r2 "status" = some (.str "failed") ∧
      Row.get? r2 "error_message" = some (.str "Missing SKU") :=
  C6_missing_sku Mode.warehouse [] "tmall" apiStub c6Df 0 c6Row rfl rfl rfl

/-! ## C10: blank record_id fails without a status call -/

/-- C10: for every row in the `updating` state whose `record_id` cell is
a blank string (empty after stripping), `_status_row` returns a `failed`
result with the message `"Missing record_id"` and performs zero remote
calls, and the poll-round write-back marks the row `failed` with that
message. -/
theorem C10_missing_record_id (api : String → Except String Dict) (row : Row)
    (st rid : String)
    (hst : Row.get? row "status" = some (.str st))
    (hup : pyLower st = "updating")
    (hrid : Row.get? row "record_id" = some (.str rid))
    (hblank : pyStrip rid = "") :
    statusRow true api row = .ok (failRes (.str "Missing record_id"), 0) ∧
    ∀ (df : List Row) (i : Nat), df.get? i = some row →
      ∃ r2, (mergePoll df i (failRes (.str "Missing record_id"))).get? i = some r2 ∧
        Row.get? r2 "status" = some (.str "failed") ∧
        Row.get? r2 "error_message" = some (.str "Missing record_id") := by
  have h1 : getOrEmptyLower row "status" = .ok "updating" := by
    unfold getOrEmptyLower
    rw [hst]
    dsimp only
    rw [hup]
  have h2 : getOrEmptyTrim row "record_id" = .ok "" := by
    unfold getOrEmptyTrim
    rw [hrid]
    dsimp only
    rw [hblank]
  constructor
  · unfold statusRow
    rw [h1, h2]
    rfl
  · intro df i hdf
    have hlt : i < df.length := get?_lt_length df i row hdf
    have hdf2 : df[i]? = some row := by
      simpa [List.get?_eq_getElem?] using hdf
    have hm : mergePoll df i (failRes (.str "Missing record_id")) =
        df.set i (Row.set (Row.set row "status" (.str "failed"))
          "error_message" (.str "Missing record_id")) := by
      simp [mergePoll, failRes, hdf2, pyStr, jsonTruthy]
    rw [hm]
    refine ⟨_, List.get?_set_eq_of_lt _ hlt, ?_, ?_⟩
    · rw [rowGet_set_ne _ _ _ _ (by decide), rowGet_set_self]
    · rw [rowGet_set_self]

/-- The row used by the C10 witness: updating with a whitespace-only
record id. -/
def c10Row : Row := [("status", .str "Updating"), ("record_id", .str "  ")]

/-- Witness for C10 at concrete inputs. -/
theorem C10_missing_record_id_witness :
    statusRow true statusApiStub c10Row =
      .ok (failRes (.str "Missing record_id"), 0) ∧
    ∃ r2, (mergePoll [c10Row] 0 (failRes (.str "Missing record_id"))).get? 0 =
        some r2 ∧
      Row.get? r2 "status" = some (.str "failed") ∧
      Row.get? r2 "error_message" = some (.str "Missing record_id") :=
  ⟨(C10_missing_record_id statusApiStub c10Row "Updating" "  "
      rfl (by decide) rfl (by decide)).1,
   (C10_missing_record_id statusApiStub c10Row "Updating" "  "
      rfl (by decide) rfl (by decide)).2 [c10Row] 0 rfl⟩

/-! ## C5: backend status string mapping -/

theorem rawStatus_str (s : String) : rawStatus (some (.str s)) = .ok (pyLower s) := by
  by_cases he : s = ""
  · subst he
    rfl
  · have ht : jsonTruthy (.str s) = true := by simp [jsonTruthy, he]
    simp [rawStatus, ht]

/-- Reaching the status-string dispatch of `_status_row` for an
updating row with a non-blank record id and a successful status call. -/
theorem statusRow_to_body (api : String → Except String Dict) (row : Row)
    (st rid : String) (resp : Dict)
    (hst : Row.get? row "status" = some (.str st))
    (hup : pyLower st = "updating")
    (hrid : Row.get? row "record_id" = some (.str rid))
    (hne : pyStrip rid ≠ "")
    (hapi : api (pyStrip rid) = .ok resp) :
    statusRow true api row = .ok (statusRowBody resp, 1) := by
  have h1 : getOrEmptyLower row "status" = .ok "updating" := by
    unfold getOrEmptyLower
    rw [hst]
    dsimp only
    rw [hup]
  have h2 : getOrEmptyTrim row "record_id" = .ok (pyStrip rid) := by
    unfold getOrEmptyTrim
    rw [hrid]
  have hbeq : (pyStrip rid == "") = false := beq_eq_false_iff_ne.mpr hne
  unfold statusRow
  rw [h1]
  dsimp only
  rw [if_neg (by decide)]
  rw [h2]
  dsimp only
  rw [hapi]
  have hcond : ¬ ((pyStrip rid == "") = true) := by
    rw [hbeq]
    exact Bool.false_ne_true
  rw [if_neg hcond]
  rw [if_neg (by decide)]

/-- The status-string dispatch of lines 334-348. -/
theorem statusRowBody_mapping (resp d0 : Dict) (rest : List Json) (s : String)
    (hdata : Dict.get? resp "data" = some (.arr (.obj d0 :: rest)))
    (hs : Dict.get? d0 "status" = some (.str s)) :
    (pyLower s = "success" → statusRowBody resp = successRes) ∧
    (∀ msgs, (pyLower s = "fail" ∨ pyLower s = "failed") →
       extractMsgs (Dict.get? d0 "rows") = .ok msgs →
       statusRowBody resp =
         failRes (.str (if msgs != [] then String.intercalate " | " msgs
                        else "Update failed"))) ∧
    (pyLower s ≠ "success" → pyLower s ≠ "fail" → pyLower s ≠ "failed" →
       statusRowBody resp = updatingRes none) := by
  have hcore : statusRowBody resp =
      (if pyLower s == "success" then successRes
       else if pyLower s == "fail" || pyLower s == "failed" then
         match extractMsgs (Dict.get? d0 "rows") with
         | .error e => failRes (.str e)
         | .ok msgs =>
             failRes (.str (if msgs != [] then String.intercalate " | " msgs
                            else "Update failed"))
       else updatingRes none) := by
    unfold statusRowBody
    rw [hdata]
    dsimp only
    rw [hs, rawStatus_str]
    rw [show (!jsonTruthy (Json.arr (Json.obj d0 :: rest))) = false from rfl]
    rw [if_neg Bool.false_ne_true]
  refine ⟨?_, ?_, ?_⟩
  · intro h
    rw [hcore, if_pos (by simp [h])]
  · intro msgs hor hmsgs
    have h1 : (pyLower s == "success") = false := by
      rcases hor with h | h <;> rw [h] <;> decide
    have h2 : (pyLower s == "fail" || pyLower s == "failed") = true := by
      rcases hor with h | h <;> rw [h] <;> decide
    rw [hcore, if_neg (by simp [h1]), if_pos (by simp [h2]), hmsgs]
  · intro hn1 hn2 hn3
    have h1 : (pyLower s == "success") = false := beq_eq_false_iff_ne.mpr hn1
    have h2 : (pyLower s == "fail") = false := beq_eq_false_iff_ne.mpr hn2
    have h3 : (pyLower s == "failed") = false := beq_eq_false_iff_ne.mpr hn3
    rw [hcore, if_neg (by simp [h1]), if_neg (by simp [h2, h3])]

/-- C5, counterexample.  The claim says the per-item error messages are
"joined by \"|\"".  The code joins them with `" | ".join(msgs)` — a pipe
surrounded by spaces — so for messages `a` and `b` the stored message is
`"a | b"`, not `"a|b"`. -/
theorem C5_counterexample :
    statusRowBody
      [("data", .arr [.obj [("status", .str "fail"),
        ("rows", .arr [.obj [("errorMessage", .str "a")],
                       .obj [("errorMessage", .str "b")]])]])] =
      failRes (.str "a | b") ∧
    "a | b" ≠ String.intercalate "|" ["a", "b"] := by
  exact ⟨rfl, by decide⟩

/-- C5, amended: for every row polled in a status round (updating, with
a non-blank record id) whose status call returns a record, the backend
status string is lowered and mapped as follows: `"success"` makes the
row success; `"fail"`/`"failed"` makes it failed with the truthy
per-item error messages joined by `" | "` (pipe surrounded by spaces),
or `"Update failed"` when none are present; `"updating"` and every other
unrecognized string leaves the row in the updating state. -/
theorem C5_status_mapping_amended (api : String → Except String Dict)
    (row : Row) (st rid : String) (resp d0 : Dict) (rest : List Json) (s : String)
    (hst : Row.get? row "status" = some (.str st))
    (hup : pyLower st = "updating")
    (hrid : Row.get? row "record_id" = some (.str rid))
    (hne : pyStrip rid ≠ "")
    (hapi : api (pyStrip rid) = .ok resp)
    (hdata : Dict.get? resp "data" = some (.arr (.obj d0 :: rest)))
    (hs : Dict.get? d0 "status" = some (.str s)) :
    (pyLower s = "success" → statusRow true api row = .ok (successRes, 1)) ∧
    (∀ msgs, (pyLower s = "fail" ∨ pyLower s = "failed") →
       extractMsgs (Dict.get? d0 "rows") = .ok msgs →
       statusRow true api row =
         .ok (failRes (.str (if msgs != [] then String.intercalate " | " msgs
                             else "Update failed")), 1)) ∧
    (pyLower s ≠ "success" → pyLower s ≠ "fail" → pyLower s ≠ "failed" →
       statusRow true api row = .ok (updatingRes none, 1)) := by
  have hbody := statusRow_to_body api row st rid resp hst hup hrid hne hapi
  obtain ⟨hsuc, hfail, hupd⟩ := statusRowBody_mapping resp d0 rest s hdata hs
  refine ⟨?_, ?_, ?_⟩
  · intro h
    rw [hbody, hsuc h]
  · intro msgs hor hmsgs
    rw [hbody, hfail msgs hor hmsgs]
  · intro hn1 hn2 hn3
    rw [hbody, hupd hn1 hn2 hn3]

/-- The updating row used by the C5 witness. -/
def c5Row : Row := [("status", .str "updating"), ("record_id", .str "r1")]

/-- Status API returning `Success` for the C5 witness. -/
def c5ApiSuccess : String → Except String Dict :=
  fun _ => .ok [("data", .arr [.obj [("status", .str "Success")]])]

/-- Status API returning `fail` with two item messages. -/
def c5ApiFail : String → Except String Dict :=
  fun _ => .ok [("data", .arr [.obj [("status", .str "fail"),
    ("rows", .arr [.obj [("errorMessage", .str "a")],
                   .obj [("errorMessage", .str "b")]])]])]

/-- Status API returning an unrecognized status string. -/
def c5ApiWeird : String → Except String Dict :=
  fun _ => .ok [("data", .arr [.obj [("status", .str "pending")]])]

/-- Witness for C5 at concrete inputs: one application per branch of the
mapping. -/
theorem C5_status_mapping_witness :
    statusRow true c5ApiSuccess c5Row = .ok (successRes, 1) ∧
    statusRow true c5ApiFail c5Row =
      .ok (failRes (.str (if (["a", "b"] != ([] : List String)) then
        String.intercalate " | " ["a", "b"] else "Update failed")), 1) ∧
    statusRow true c5ApiWeird c5Row = .ok (updatingRes none, 1) :=
  ⟨(C5_status_mapping_amended c5ApiSuccess c5Row "updating" "r1" _
      [("status", .str "Success")] [] "Success"
      rfl (by decide) rfl (by decide) rfl rfl rfl).1 (by decide),
   (C5_status_mapping_amended c5ApiFail c5Row "updating" "r1" _
      [("status", .str "fail"),
       ("rows", .arr [.obj [("errorMessage", .str "a")],
                      .obj [("errorMessage", .str "b")]])] [] "fail"
      rfl (by decide) rfl (by decide) rfl rfl rfl).2.1
      ["a", "b"] (Or.inl (by decide)) rfl,
   (C5_status_mapping_amended c5ApiWeird c5Row "updating" "r1" _
      [("status", .str "pending")] [] "pending"
      rfl (by decide) rfl (by decide) rfl rfl rfl).2.2
      (by decide) (by decide) (by decide)⟩

/-! ## C8: poll-loop termination -/

/-- C8: the polling loop terminates (i) immediately when no rows are
`updating` at entry to an iteration, (ii) immediately when the
configured maximum number of rounds is reached, and (iii) at the round
in which every previously `updating` row reaches `success` or `failed`:
that round executes, the break at line 388 fires before the sleep, and
the loop returns having executed exactly one more round and performed no
further sleep — regardless of how much fuel (future iterations) remains
available. -/
theorem C8_poll_termination :
    (∀ (api : Nat → String → Except String Dict) (m : Option Nat)
       (fuel attempt : Nat) (df : List Row),
       pendingIdxs df = [] →
       pollLoop true api m (fuel + 1) attempt df = .ok (df, 0, 0)) ∧
    (∀ (api : Nat → String → Except String Dict) (mr fuel attempt : Nat)
       (df : List Row),
       pendingIdxs df ≠ [] → attempt ≥ mr →
       pollLoop true api (some mr) (fuel + 1) attempt df = .ok (df, 0, 0)) ∧
    (∀ (api : Nat → String → Except String Dict) (m : Option Nat)
       (fuel attempt : Nat) (df df2 : List Row) (calls : Nat),
       pendingIdxs df ≠ [] →
       (m = none ∨ ∃ mr, m = some mr ∧ attempt < mr) →
       pollRound true (api attempt) df = .ok (df2, calls) →
       pendingIdxs df2 = [] →
       pollLoop true api m (fuel + 1) attempt df = .ok (df2, 1, 0)) := by
  refine ⟨?_, ?_, ?_⟩
  · intro api m fuel attempt df h
    simp [pollLoop, h]
  · intro api mr fuel attempt df hne hge
    have hb : (pendingIdxs df == []) = false := beq_eq_false_iff_ne.mpr hne
    have hd : maxReached (some mr) attempt = true := by
      simpa [maxReached] using decide_eq_true hge
    simp [pollLoop, hb, hd]
  · intro api m fuel attempt df df2 calls hne hm hpoll h2
    have hb : (pendingIdxs df == []) = false := beq_eq_false_iff_ne.mpr hne
    have hmax : maxReached m attempt = false := by
      rcases hm with h | ⟨mr, hmr, hlt⟩
      · subst h
        rfl
      · subst hmr
        exact decide_eq_false (Nat.not_le.mpr hlt)
    have hb2 : (pendingIdxs df2 == []) = true := by
      rw [h2]
      rfl
    unfold pollLoop
    rw [if_neg (by decide)]
    rw [if_neg (by rw [hb]; exact Bool.false_ne_true)]
    rw [if_neg (by rw [hmax]; exact Bool.false_ne_true)]
    rw [hpoll]
    show (if (pendingIdxs df2 == []) = true then Except.ok (df2, 1, 0)
          else _) = Except.ok (df2, 1, 0)
    rw [if_pos hb2]

/-- Stub per-round status API. -/
def pollApiStub : Nat → String → Except String Dict := fun _ _ => .error "stub"

/-- A one-row frame with a pending (`updating`) row. -/
def c8Df : List Row := [[("status", .str "updating"), ("record_id", .str "r1")]]

/-- Per-round status API whose answer resolves the row to success. -/
def c8Api : Nat → String → Except String Dict :=
  fun _ _ => .ok [("data", .arr [.obj [("status", .str "success")]])]

/-- Witness for C8 at concrete inputs: one application per termination
condition. -/
theorem C8_poll_termination_witness :
    pollLoop true pollApiStub none (0 + 1) 0 c4Df = .ok (c4Df, 0, 0) ∧
    pollLoop true pollApiStub (some 0) (0 + 1) 0 c8Df = .ok (c8Df, 0, 0) ∧
    pollLoop true c8Api none (5 + 1) 0 c8Df =
      .ok ([[("status", .str "success"), ("record_id", .str "r1")]], 1, 0) :=
  ⟨C8_poll_termination.1 pollApiStub none 0 0 c4Df (by decide),
   C8_poll_termination.2.1 pollApiStub 0 0 0 c8Df (by decide) (by decide),
   C8_poll_termination.2.2 c8Api none 5 0 c8Df
      [[("status", .str "success"), ("record_id", .str "r1")]] 1
      (by decide) (Or.inl rfl) rfl (by decide)⟩

/-! ## C3: resume merge -/

/-- Lookup commutes with a key-preserving map over a row. -/
theorem rowGet_map_pair (f : String → Cell → Cell) :
    ∀ (r : Row) (c : String),
      Row.get? (r.map (fun p => (p.1, f p.1 p.2))) c = (Row.get? r c).map (f c) := by
  intro r c
  induction r with
  | nil => rfl
  | cons a t ih =>
      rw [List.map_cons, rowGet_cons, rowGet_cons]
      cases hac : a.1 == c
      · rw [if_neg (by simp [hac]), if_neg (by simp [hac])]
        exact ih
      · have : a.1 = c := by simpa using hac
        subst this
        rw [if_pos (by simp), if_pos (by simp)]
        rfl

/-- The effect of `DataFrame.update` on one matched row, column by
column: every column of the base row (and only those — no column is
added) takes the first matching result-file row's value when that value
is a non-NA string and the column is not the index, and keeps its base
value otherwise. -/
theorem rowUpdate_get (key : String) (prows : List Row) (r pr : Row)
    (kv : Cell) (c : String)
    (h1 : Row.get? r key = some kv)
    (h2 : prows.find? (fun p => Row.get? p key == some kv) = some pr) :
    Row.get? (rowUpdate key prows r) c =
      (Row.get? r c).map (fun v =>
        if c == key then v
        else match Row.get? pr c with
             | some (.str s) => .str s
             | _ => v) := by
  unfold rowUpdate
  rw [h1]
  dsimp only
  rw [h2]
  dsimp only
  exact rowGet_map_pair
    (fun c2 v => if c2 == key then v
                 else match Row.get? pr c2 with
                      | some (.str s) => .str s
                      | _ => v) r c

/-- An unmatched base row is unchanged by the merge. -/
theorem rowUpdate_unmatched (key : String) (prows : List Row) (r : Row)
    (kv : Cell)
    (h1 : Row.get? r key = some kv)
    (h2 : prows.find? (fun p => Row.get? p key == some kv) = none) :
    rowUpdate key prows r = r := by
  unfold rowUpdate
  rw [h1]
  dsimp only
  rw [h2]

/-- The blank tracked columns appended by `_prepare`. -/
def blankTracked : Row :=
  [("status", .str ""), ("record_id", .str ""), ("error_message", .str "")]

/-- `_prepare` leaves a frame unchanged when all tracked columns are
present. -/
theorem ensureTracked_present (df : DF)
    (ht : ∀ t ∈ ["status", "record_id", "error_message"], t ∈ df.cols) :
    ensureTracked df = df := by
  have e : ∀ c, c ∈ df.cols → ensureStep df c = df := by
    intro c hc
    unfold ensureStep
    rw [if_pos hc]
  unfold ensureTracked
  simp only [List.foldl_cons, List.foldl_nil]
  rw [e _ (ht _ (by simp)), e _ (ht _ (by simp)), e _ (ht _ (by simp))]

/-- `_prepare` creates all three tracked columns blank (appended at the
end, for every row) when none is present. -/
theorem ensureTracked_absent (df : DF)
    (hd : ∀ t ∈ ["status", "record_id", "error_message"], t ∉ df.cols) :
    ensureTracked df =
      ⟨df.cols ++ ["status", "record_id", "error_message"],
       df.rows.map (fun r => r ++ blankTracked)⟩ := by
  have h1 : "status" ∉ df.cols := hd _ (by simp)
  have h2 : "record_id" ∉ df.cols := hd _ (by simp)
  have h3 : "error_message" ∉ df.cols := hd _ (by simp)
  have e1 : ensureStep df "status" =
      ⟨df.cols ++ ["status"],
       df.rows.map (fun r => r ++ [("status", .str "")])⟩ := by
    unfold ensureStep
    rw [if_neg h1]
  have e2 : ensureStep
      ⟨df.cols ++ ["status"],
       df.rows.map (fun r => r ++ [("status", .str "")])⟩ "record_id" =
      ⟨(df.cols ++ ["status"]) ++ ["record_id"],
       (df.rows.map (fun r => r ++ [("status", .str "")])).map
         (fun r => r ++ [("record_id", .str "")])⟩ := by
    unfold ensureStep
    dsimp only
    rw [if_neg (by
      intro hmem
      rcases List.mem_append.mp hmem with hm | hm
      · exact h2 hm
      · simp at hm)]
  have e3 : ensureStep
      ⟨(df.cols ++ ["status"]) ++ ["record_id"],
       (df.rows.map (fun r => r ++ [("status", .str "")])).map
         (fun r => r ++ [("record_id", .str "")])⟩ "error_message" =
      ⟨((df.cols ++ ["status"]) ++ ["record_id"]) ++ ["error_message"],
       ((df.rows.map (fun r => r ++ [("status", .str "")])).map
         (fun r => r ++ [("record_id", .str "")])).map
         (fun r => r ++ [("error_message", .str "")])⟩ := by
    unfold ensureStep
    dsimp only
    rw [if_neg (by
      intro hmem
      rcases List.mem_append.mp hmem with hm | hm
      · rcases List.mem_append.mp hm with hm2 | hm2
        · exact h3 hm2
        · simp at hm2
      · simp at hm)]
  unfold ensureTracked
  simp only [List.foldl_cons, List.foldl_nil]
  rw [e1, e2, e3]
  simp [blankTracked, List.map_map, Function.comp, List.append_assoc]

/-- The resume merge applies the per-row update to every source row when
both frames carry the identifier column. -/
theorem resumeMerge_applies (base prev : DF)
    (hguard : (if "sku id" ∈ (normCols base).cols then "sku id" else "sku_id") ∈
        (normCols base).cols ∧
      (if "sku id" ∈ (normCols base).cols then "sku id" else "sku_id") ∈
        (normCols prev).cols) :
    resumeMerge base (some prev) =
      ⟨(normCols base).cols,
       (normCols base).rows.map
         (rowUpdate (if "sku id" ∈ (normCols base).cols then "sku id" else "sku_id")
           (normCols prev).rows)⟩ := by
  unfold resumeMerge
  dsimp only
  rw [if_pos hguard]

/-- Rows of a successful load, for concrete evaluation. -/
def loadRows (req : List String) (base : DF) (prev : DF) : List Row :=
  match loadInit req base (some prev) with
  | .ok d => d.rows
  | .error _ => []

/-- Source frame A: no tracked columns, a `warehouse` column, rows `A`
(matched by the result file) and `B` (unmatched). -/
def c3SrcA : DF :=
  ⟨["sku id", "taobao_id", "warehouse"],
   [[("sku id", .str "A"), ("taobao_id", .str "t1"), ("warehouse", .str "W2")],
    [("sku id", .str "B"), ("taobao_id", .str "t2"), ("warehouse", .str "W9")]]⟩

/-- Result frame A: row `A` finished `success` with `warehouse` `W1`. -/
def c3PrevA : DF :=
  ⟨["sku id", "taobao_id", "warehouse", "status", "record_id", "error_message"],
   [[("sku id", .str "A"), ("taobao_id", .str "t1"), ("warehouse", .str "W1"),
     ("status", .str "success"), ("record_id", .str "r1"), ("error_message", .na)]]⟩

/-- Source frame B: carries a pre-filled `status` column; its row has no
match in the result frame. -/
def c3SrcB : DF :=
  ⟨["sku id", "taobao_id", "status"],
   [[("sku id", .str "B"), ("taobao_id", .str "t2"), ("status", .str "stale")]]⟩

def c3PrevB : DF :=
  ⟨["sku id", "taobao_id", "status"],
   [[("sku id", .str "C"), ("taobao_id", .str "t3"), ("status", .str "success")]]⟩

/-- C3, counterexample.  Three violations of the claim at concrete
inputs: (i) the non-tracked `warehouse` column of the matched row `A` is
overlaid with the result file's `W1` (the claim says only
status/record_id/error_message are overlaid); (ii) row `A`'s `status`
after loading is blank, not the result file's `success` — a column
absent from the source is not carried over by `DataFrame.update`, so the
prior status is lost; (iii) the unmatched row `B` of source frame B ends
up with its own pre-filled `status` value `stale`, not blank. -/
theorem C3_counterexample :
    Row.get? ((loadRows ["sku id", "taobao_id"] c3SrcA c3PrevA).headD [])
      "warehouse" = some (.str "W1") ∧
    Row.get? ((loadRows ["sku id", "taobao_id"] c3SrcA c3PrevA).headD [])
      "status" = some (.str "") ∧
    Row.get? ((loadRows ["sku id", "taobao_id"] c3SrcB c3PrevB).headD [])
      "status" = some (.str "stale") := by
  exact ⟨by decide, by decide, by decide⟩

/-- C3, amended: when the result file exists and both (normalized)
frames carry the identifier column, loading maps every source row
through the per-row update; a matched source row takes the result row's
non-NA value for EVERY column the source row has (except the identifier
itself), keeps its own value where the result value is NA or absent, and
gains no new columns — in particular tracked columns absent from the
source are not carried over; an unmatched source row is unchanged; and
`_prepare` then creates the tracked columns blank exactly when they are
absent (all three appended blank when none is present, nothing changed
when all are present). -/
theorem C3_resume_merge_amended :
    (∀ (base prev : DF),
       (if "sku id" ∈ (normCols base).cols then "sku id" else "sku_id") ∈
           (normCols base).cols ∧
         (if "sku id" ∈ (normCols base).cols then "sku id" else "sku_id") ∈
           (normCols prev).cols →
       resumeMerge base (some prev) =
         ⟨(normCols base).cols,
          (normCols base).rows.map
            (rowUpdate
              (if "sku id" ∈ (normCols base).cols then "sku id" else "sku_id")
              (normCols prev).rows)⟩) ∧
    (∀ (key : String) (prows : List Row) (r pr : Row) (kv : Cell) (c : String),
       Row.get? r key = some kv →
       prows.find? (fun p => Row.get? p key == some kv) = some pr →
       Row.get? (rowUpdate key prows r) c =
         (Row.get? r c).map (fun v =>
           if c == key then v
           else match Row.get? pr c with
                | some (.str s) => .str s
                | _ => v)) ∧
    (∀ (key : String) (prows : List Row) (r : Row) (kv : Cell),
       Row.get? r key = some kv →
       prows.find? (fun p => Row.get? p key == some kv) = none →
       rowUpdate key prows r = r) ∧
    (∀ df : DF, (∀ t ∈ ["status", "record_id", "error_message"], t ∈ df.cols) →
       ensureTracked df = df) ∧
    (∀ df : DF, (∀ t ∈ ["status", "record_id", "error_message"], t ∉ df.cols) →
       ensureTracked df =
         ⟨df.cols ++ ["status", "record_id", "error_message"],
          df.rows.map (fun r => r ++ blankTracked)⟩) :=
  ⟨fun base prev hguard => resumeMerge_applies base prev hguard,
   fun key prows r pr kv c h1 h2 => rowUpdate_get key prows r pr kv c h1 h2,
   fun key prows r kv h1 h2 => rowUpdate_unmatched key prows r kv h1 h2,
   fun df ht => ensureTracked_present df ht,
   fun df hd => ensureTracked_absent df hd⟩

/-- Witness for C3 at concrete inputs: the merge applies to frame A, the
matched row `A` is overlaid column-wise, the row of frame B is
unmatched, `_prepare` leaves `c3PrevA`'s columns alone and appends all
three blank tracked columns to `c3SrcA`. -/
theorem C3_resume_merge_witness :
    resumeMerge c3SrcA (some c3PrevA) =
      ⟨(normCols c3SrcA).cols,
       (normCols c3SrcA).rows.map
         (rowUpdate
           (if "sku id" ∈ (normCols c3SrcA).cols then "sku id" else "sku_id")
           (normCols c3PrevA).rows)⟩ ∧
    Row.get? (rowUpdate "sku id" (normCols c3PrevA).rows
        ((normCols c3SrcA).rows.headD [])) "warehouse" =
      (Row.get? ((normCols c3SrcA).rows.headD []) "warehouse").map (fun v =>
        if "warehouse" == "sku id" then v
        else match Row.get? ((normCols c3PrevA).rows.headD []) "warehouse" with
             | some (.str s) => .str s
             | _ => v) ∧
    rowUpdate "sku id" (normCols c3PrevB).rows ((normCols c3SrcB).rows.headD []) =
      (normCols c3SrcB).rows.headD [] ∧
    ensureTracked c3PrevA = c3PrevA ∧
    ensureTracked c3SrcA =
      ⟨c3SrcA.cols ++ ["status", "record_id", "error_message"],
       c3SrcA.rows.map (fun r => r ++ blankTracked)⟩ :=
  ⟨C3_resume_merge_amended.1 c3SrcA c3PrevA (by decide),
   C3_resume_merge_amended.2.1 "sku id" (normCols c3PrevA).rows
     ((normCols c3SrcA).rows.headD []) ((normCols c3PrevA).rows.headD [])
     (.str "A") "warehouse" (by decide) (by decide),
   C3_resume_merge_amended.2.2.1 "sku id" (normCols c3PrevB).rows
     ((normCols c3SrcB).rows.headD []) (.str "B") (by decide) (by decide),
   C3_resume_merge_amended.2.2.2.1 c3PrevA (by decide),
   C3_resume_merge_amended.2.2.2.2 c3SrcA (by decide)⟩

end Update
